import Mathlib

/-!
Verification development for `src/sysinfo/nvapi_adapter.cpp` of dxvk-nvapi.

The file shallowly embeds the adapter-translator unit: the device snapshot
the adapter caches at initialization time, the query accessors
(`GetDriverVersion`, `GetDeviceId`, `GetGpuType`, `GetVRamSize`, `GetLUID`,
`GetArchitectureId`), and the control flow of `NvapiAdapter::Initialize`.
Machine integers are modelled as `Nat` with explicit `% 2^32` at the points
where the C++ code performs a 32-bit conversion or where 32-bit arithmetic
can wrap.
-/

set_option autoImplicit false

/-- 2^32, the modulus of `uint32_t` arithmetic. -/
def U32 : Nat := 4294967296

/-- Truncation to `uint32_t`, as performed by a C++ conversion to a 32-bit
unsigned type. -/
def u32 (n : Nat) : Nat := n % U32

/-- `VK_VERSION_MAJOR` from `vulkan_core.h`: `version >> 22`. -/
def VK_VERSION_MAJOR (version : Nat) : Nat := version >>> 22

/-- `VK_VERSION_MINOR` from `vulkan_core.h`: `(version >> 12) & 0x3ff`. -/
def VK_VERSION_MINOR (version : Nat) : Nat := (version >>> 12) &&& 1023

/-- `VK_VERSION_PATCH` from `vulkan_core.h`: `version & 0xfff`. -/
def VK_VERSION_PATCH (version : Nat) : Nat := version &&& 4095

/-- `VK_MAKE_VERSION` from `vulkan_core.h`:
`(major << 22) | (minor << 12) | patch`. -/
def VK_MAKE_VERSION (major minor patch : Nat) : Nat :=
  (major <<< 22) ||| (minor <<< 12) ||| patch

/-- `VK_DRIVER_ID_NVIDIA_PROPRIETARY` (= 4) from `vulkan_core.h`. -/
def VK_DRIVER_ID_NVIDIA_PROPRIETARY : Nat := 4

/-- `VK_PHYSICAL_DEVICE_TYPE_OTHER` (= 0). -/
def VK_PHYSICAL_DEVICE_TYPE_OTHER : Nat := 0

/-- `VK_PHYSICAL_DEVICE_TYPE_INTEGRATED_GPU` (= 1). -/
def VK_PHYSICAL_DEVICE_TYPE_INTEGRATED_GPU : Nat := 1

/-- `VK_PHYSICAL_DEVICE_TYPE_DISCRETE_GPU` (= 2). -/
def VK_PHYSICAL_DEVICE_TYPE_DISCRETE_GPU : Nat := 2

/-- `VK_PHYSICAL_DEVICE_TYPE_VIRTUAL_GPU` (= 3). -/
def VK_PHYSICAL_DEVICE_TYPE_VIRTUAL_GPU : Nat := 3

/-- `VK_PHYSICAL_DEVICE_TYPE_CPU` (= 4). -/
def VK_PHYSICAL_DEVICE_TYPE_CPU : Nat := 4

/-- `VK_MEMORY_HEAP_DEVICE_LOCAL_BIT` (= 1). -/
def VK_MEMORY_HEAP_DEVICE_LOCAL_BIT : Nat := 1

/-- `VK_EXT_PCI_BUS_INFO_EXTENSION_NAME`. -/
def VK_EXT_PCI_BUS_INFO_EXTENSION_NAME : String := "VK_EXT_pci_bus_info"

/-- `VK_KHR_DRIVER_PROPERTIES_EXTENSION_NAME`. -/
def VK_KHR_DRIVER_PROPERTIES_EXTENSION_NAME : String := "VK_KHR_driver_properties"

/-- `VK_KHR_FRAGMENT_SHADING_RATE_EXTENSION_NAME`. -/
def VK_KHR_FRAGMENT_SHADING_RATE_EXTENSION_NAME : String := "VK_KHR_fragment_shading_rate"

/-- `VK_NV_SHADING_RATE_IMAGE_EXTENSION_NAME`. -/
def VK_NV_SHADING_RATE_IMAGE_EXTENSION_NAME : String := "VK_NV_shading_rate_image"

/-- `VK_NVX_IMAGE_VIEW_HANDLE_EXTENSION_NAME`. -/
def VK_NVX_IMAGE_VIEW_HANDLE_EXTENSION_NAME : String := "VK_NVX_image_view_handle"

/-- `VK_NV_CLIP_SPACE_W_SCALING_EXTENSION_NAME`. -/
def VK_NV_CLIP_SPACE_W_SCALING_EXTENSION_NAME : String := "VK_NV_clip_space_w_scaling"

/-- `VK_NV_VIEWPORT_ARRAY2_EXTENSION_NAME`. -/
def VK_NV_VIEWPORT_ARRAY2_EXTENSION_NAME : String := "VK_NV_viewport_array2"

/-- The fields of `VkPhysicalDeviceProperties` the shim reads. `vendorID`,
`deviceID`, `driverVersion` are `uint32_t`; `deviceType` is the
`VkPhysicalDeviceType` enumeration. -/
structure VkPhysicalDeviceProperties where
  deviceName : String
  vendorID : Nat
  deviceID : Nat
  deviceType : Nat
  driverVersion : Nat
deriving DecidableEq

/-- The field of `VkPhysicalDevicePCIBusInfoPropertiesEXT` the shim reads. -/
structure VkPhysicalDevicePCIBusInfoProperties where
  pciBus : Nat
deriving DecidableEq

/-- The field of `VkPhysicalDeviceDriverPropertiesKHR` the shim reads. -/
structure VkPhysicalDeviceDriverProperties where
  driverID : Nat
deriving DecidableEq

/-- The field of `VkPhysicalDeviceFragmentShadingRatePropertiesKHR` the shim
reads (a `VkBool32`, modelled as `Bool`). -/
structure VkPhysicalDeviceFragmentShadingRateProperties where
  primitiveFragmentShadingRateWithMultipleViewports : Bool
deriving DecidableEq

/-- The fields of `VkPhysicalDeviceIDProperties` the shim reads: the 8-byte
LUID (modelled as a list of bytes) and the `VkBool32` validity flag. -/
structure VkPhysicalDeviceIDProperties where
  deviceLUID : List Nat
  deviceLUIDValid : Bool
deriving DecidableEq

/-- One `VkMemoryHeap`: `size` is a `VkDeviceSize` (`uint64_t`), `flags` a
`VkMemoryHeapFlags` bitmask. -/
structure VkMemoryHeap where
  size : Nat
  flags : Nat
deriving DecidableEq

/-- `VkPhysicalDeviceMemoryProperties`: the first `memoryHeapCount` entries of
the `memoryHeaps` array, in index order. -/
structure VkPhysicalDeviceMemoryProperties where
  memoryHeaps : List VkMemoryHeap
deriving DecidableEq

/-- The 8-byte `LUID` output buffer of `NvapiAdapter::GetLUID`. -/
structure LUID where
  bytes : List Nat
deriving DecidableEq

/-- `NV_GPU_ARCHITECTURE_ID`: the architecture generations
`NvapiAdapter::GetArchitectureId` can return, oldest to newest. -/
inductive NV_GPU_ARCHITECTURE_ID where
  | NV_GPU_ARCHITECTURE_GK100
  | NV_GPU_ARCHITECTURE_GM200
  | NV_GPU_ARCHITECTURE_GP100
  | NV_GPU_ARCHITECTURE_GV100
  | NV_GPU_ARCHITECTURE_TU100
  | NV_GPU_ARCHITECTURE_GA100
deriving DecidableEq

export NV_GPU_ARCHITECTURE_ID (NV_GPU_ARCHITECTURE_GK100 NV_GPU_ARCHITECTURE_GM200 NV_GPU_ARCHITECTURE_GP100 NV_GPU_ARCHITECTURE_GV100 NV_GPU_ARCHITECTURE_TU100 NV_GPU_ARCHITECTURE_GA100)

/-- The state of an `NvapiAdapter` instance after initialization: the device
snapshot (`m_deviceExtensions` and the property structures), the normalized
driver version `m_vkDriverVersion`, and the three override fields. -/
structure NvapiAdapter where
  m_deviceExtensions : List String
  m_deviceProperties : VkPhysicalDeviceProperties
  m_devicePciBusProperties : VkPhysicalDevicePCIBusInfoProperties
  m_deviceDriverProperties : VkPhysicalDeviceDriverProperties
  m_deviceFragmentShadingRateProperties : VkPhysicalDeviceFragmentShadingRateProperties
  m_deviceIdProperties : VkPhysicalDeviceIDProperties
  m_memoryProperties : VkPhysicalDeviceMemoryProperties
  m_vkDriverVersion : Nat
  m_deviceIdOverride : Nat
  m_subsystemIdOverride : Nat
  m_driverVersionOverride : Nat
deriving DecidableEq

/-- `NvapiAdapter::isVkDeviceExtensionSupported`: membership of `name` in the
`m_deviceExtensions` set. -/
def NvapiAdapter.isVkDeviceExtensionSupported (a : NvapiAdapter) (name : String) : Bool :=
  a.m_deviceExtensions.contains name

/-- `NvapiAdapter::GetDeviceName`. -/
def NvapiAdapter.GetDeviceName (a : NvapiAdapter) : String :=
  a.m_deviceProperties.deviceName

/-- `NvapiAdapter::GetDriverVersion`: the override when positive, otherwise
`major * 100 + min(minor, 99)` of the normalized driver version. The result
is a `uint32_t`. -/
def NvapiAdapter.GetDriverVersion (a : NvapiAdapter) : Nat :=
  if a.m_driverVersionOverride > 0 then
    a.m_driverVersionOverride
  else
    u32 (VK_VERSION_MAJOR a.m_vkDriverVersion * 100 +
      min (VK_VERSION_MINOR a.m_vkDriverVersion) 99)

/-- `NvapiAdapter::GetDriverId`. -/
def NvapiAdapter.GetDriverId (a : NvapiAdapter) : Nat :=
  a.m_deviceDriverProperties.driverID

/-- `NvapiAdapter::GetDeviceId`: the override when positive, otherwise
`(deviceID << 16) + vendorID` in `uint32_t` arithmetic. -/
def NvapiAdapter.GetDeviceId (a : NvapiAdapter) : Nat :=
  if a.m_deviceIdOverride > 0 then
    a.m_deviceIdOverride
  else
    u32 ((a.m_deviceProperties.deviceID <<< 16) + a.m_deviceProperties.vendorID)

/-- `NvapiAdapter::GetSubsystemId`. -/
def NvapiAdapter.GetSubsystemId (a : NvapiAdapter) : Nat :=
  a.m_subsystemIdOverride

/-- `NvapiAdapter::GetGpuType`: discrete and integrated pass through, every
other device type maps to `VK_PHYSICAL_DEVICE_TYPE_OTHER`. -/
def NvapiAdapter.GetGpuType (a : NvapiAdapter) : Nat :=
  let vkDeviceType := a.m_deviceProperties.deviceType
  if vkDeviceType = VK_PHYSICAL_DEVICE_TYPE_DISCRETE_GPU ∨
      vkDeviceType = VK_PHYSICAL_DEVICE_TYPE_INTEGRATED_GPU then
    vkDeviceType
  else
    VK_PHYSICAL_DEVICE_TYPE_OTHER

/-- `NvapiAdapter::GetBusId`. -/
def NvapiAdapter.GetBusId (a : NvapiAdapter) : Nat :=
  a.m_devicePciBusProperties.pciBus

/-- The loop of `NvapiAdapter::GetVRamSize`: the size of the first heap whose
flags carry `VK_MEMORY_HEAP_DEVICE_LOCAL_BIT`, divided by 1024 and converted
to the `uint32_t` return type; 0 when no heap matches. -/
def firstDeviceLocalHeapKiB : List VkMemoryHeap → Nat
  | [] => 0
  | heap :: rest =>
    if heap.flags &&& VK_MEMORY_HEAP_DEVICE_LOCAL_BIT ≠ 0 then
      u32 (heap.size / 1024)
    else
      firstDeviceLocalHeapKiB rest

/-- `NvapiAdapter::GetVRamSize`. -/
def NvapiAdapter.GetVRamSize (a : NvapiAdapter) : Nat :=
  firstDeviceLocalHeapKiB a.m_memoryProperties.memoryHeaps

/-- `NvapiAdapter::GetLUID`: takes the caller's buffer and returns the
function result together with the buffer's content after the call (the
`memcpy` happens only on the valid path). -/
def NvapiAdapter.GetLUID (a : NvapiAdapter) (luid : LUID) : Bool × LUID :=
  if !a.m_deviceIdProperties.deviceLUIDValid then
    (false, luid)
  else
    (true, ⟨a.m_deviceIdProperties.deviceLUID⟩)

/-- `NvapiAdapter::GetArchitectureId`: the descending heuristic ladder. -/
def NvapiAdapter.GetArchitectureId (a : NvapiAdapter) : NV_GPU_ARCHITECTURE_ID :=
  if a.isVkDeviceExtensionSupported VK_KHR_FRAGMENT_SHADING_RATE_EXTENSION_NAME
      && a.m_deviceFragmentShadingRateProperties.primitiveFragmentShadingRateWithMultipleViewports then
    NV_GPU_ARCHITECTURE_GA100
  else if a.isVkDeviceExtensionSupported VK_NV_SHADING_RATE_IMAGE_EXTENSION_NAME then
    NV_GPU_ARCHITECTURE_TU100
  else if a.isVkDeviceExtensionSupported VK_NVX_IMAGE_VIEW_HANDLE_EXTENSION_NAME then
    NV_GPU_ARCHITECTURE_GV100
  else if a.isVkDeviceExtensionSupported VK_NV_CLIP_SPACE_W_SCALING_EXTENSION_NAME then
    NV_GPU_ARCHITECTURE_GP100
  else if a.isVkDeviceExtensionSupported VK_NV_VIEWPORT_ARRAY2_EXTENSION_NAME then
    NV_GPU_ARCHITECTURE_GM200
  else
    NV_GPU_ARCHITECTURE_GK100

/-- `VK_SUCCESS` (= 0); every other `VkResult` value is a failure here. -/
def VK_SUCCESS : Int := 0

/-- The six characters C's `isspace` accepts, skipped by `std::stoul`. -/
def isSpaceChar (c : Char) : Bool :=
  c == ' ' || c == '\t' || c == '\n' || c == '\x0b' || c == '\x0c' || c == '\r'

/-- Value of a base-10 digit string. -/
def stoulDigits (cs : List Char) : Nat :=
  cs.foldl (fun acc c => acc * 10 + (c.toNat - 48)) 0

/-- The digit-consuming core of `std::stoul`: `none` models a thrown
exception. No digit at all is `std::invalid_argument`; a magnitude above
`ULONG_MAX` (32-bit on Windows) is `std::out_of_range`; a leading minus
negates in unsigned arithmetic (strtoul semantics). -/
def stoulCore (neg : Bool) (cs : List Char) : Option Nat :=
  let ds := cs.takeWhile Char.isDigit
  if ds.isEmpty then none
  else
    let d := stoulDigits ds
    if d > U32 - 1 then none
    else some (if neg then (U32 - d) % U32 else d)

/-- `std::stoul(s)` with the default base 10, on a platform where
`unsigned long` is 32 bits (Windows): skip leading whitespace, accept one
optional sign, then require at least one digit. `none` models a thrown
exception. -/
def stoul (s : String) : Option Nat :=
  match s.toList.dropWhile isSpaceChar with
  | '-' :: rest => stoulCore true rest
  | '+' :: rest => stoulCore false rest
  | rest => stoulCore false rest

/-- One environment-override step of `NvapiAdapter::Initialize`: an empty
variable is skipped, so the member keeps its default value 0; a non-empty
variable goes through `std::stoul`, whose exception (`none`) propagates. -/
def parseEnvOverride (s : String) : Option Nat :=
  if s.isEmpty then some 0 else stoul s

/-- Modelled from the spec: the members' default values come from the class
declaration in `nvapi_adapter.h`, which is not part of the supplied sources;
the spec states that a failed initialization "leaves the instance's queryable
state empty/default", so the sub-structures not populated by the chained
property query keep all-zero contents. -/
def defaultPciBusProperties : VkPhysicalDevicePCIBusInfoProperties := ⟨0⟩

/-- Modelled from the spec: default (all-zero) driver properties; see
`defaultPciBusProperties`. `driverID = 0` is no valid `VkDriverId`, in
particular it differs from `VK_DRIVER_ID_NVIDIA_PROPRIETARY`. -/
def defaultDriverProperties : VkPhysicalDeviceDriverProperties := ⟨0⟩

/-- Modelled from the spec: default (all-false) fragment-shading-rate
properties; see `defaultPciBusProperties`. -/
def defaultFragmentShadingRateProperties : VkPhysicalDeviceFragmentShadingRateProperties := ⟨false⟩

/-- Everything the environment decides during `NvapiAdapter::Initialize`:
which external calls succeed, which dynamically looked-up symbols are
non-null, the data the Vulkan queries deliver, the DXGI outputs, and the
three override environment variables (empty string = unset). -/
structure InitEnv where
  queryInterfaceOk : Bool
  loadLibraryOk : Bool
  procGetInstanceProcAddrOk : Bool
  procEnumerateDeviceExtensionPropertiesOk : Bool
  enumerateCountResult : Int
  enumerateDataResult : Int
  extensions : List String
  instanceProcProperties2Ok : Bool
  instanceProcMemoryProperties2Ok : Bool
  deviceProperties : VkPhysicalDeviceProperties
  pciBusProperties : VkPhysicalDevicePCIBusInfoProperties
  driverProperties : VkPhysicalDeviceDriverProperties
  fragmentShadingRateProperties : VkPhysicalDeviceFragmentShadingRateProperties
  idProperties : VkPhysicalDeviceIDProperties
  memoryProperties : VkPhysicalDeviceMemoryProperties
  dxgiOutputs : List Nat
  envDeviceId : String
  envSubsystemId : String
  envDriverVersion : String
deriving DecidableEq

/-- How a run of `NvapiAdapter::Initialize` can end. `ok` and
`returnedFalse` are the `return true` / `return false` statements;
`nullCall` models a call through a null function pointer (the source does
not check its `GetProcAddress` / `vkGetInstanceProcAddr` results);
`exn` models an exception escaping from `std::stoul`. Each constructor
carries the caller's output vector as it stands at that point. -/
inductive InitResult where
  | ok (adapter : NvapiAdapter) (outputs : List Nat)
  | returnedFalse (outputs : List Nat)
  | nullCall (outputs : List Nat)
  | exn (outputs : List Nat)
deriving DecidableEq

/-- Lines 105–112 of `nvapi_adapter.cpp`: the driver-version normalization.
For `VK_DRIVER_ID_NVIDIA_PROPRIETARY` the raw version is re-packed with
NVIDIA's bit-field split; every other driver id keeps the raw value. -/
def normalizedDriverVersion (driverID rawVersion : Nat) : Nat :=
  if driverID = VK_DRIVER_ID_NVIDIA_PROPRIETARY then
    VK_MAKE_VERSION
      (VK_VERSION_MAJOR rawVersion)
      (VK_VERSION_MINOR (rawVersion >>> 0) >>> 2)
      (VK_VERSION_PATCH (rawVersion >>> 2) >>> 4)
  else
    rawVersion

/-- The adapter state as it stands when `NvapiAdapter::Initialize` reaches
`return true`: the snapshot copied from the chained queries (extension
sub-structures only when the extension is in the support set), the
normalized driver version, and the three override members. -/
def initSnapshotState (env : InitEnv) (deviceIdOverride subsystemIdOverride driverVersionOverride : Nat) : NvapiAdapter :=
  let driverProps :=
    if env.extensions.contains VK_KHR_DRIVER_PROPERTIES_EXTENSION_NAME then
      env.driverProperties
    else defaultDriverProperties
  { m_deviceExtensions := env.extensions
    m_deviceProperties := env.deviceProperties
    m_devicePciBusProperties :=
      if env.extensions.contains VK_EXT_PCI_BUS_INFO_EXTENSION_NAME then
        env.pciBusProperties
      else defaultPciBusProperties
    m_deviceDriverProperties := driverProps
    m_deviceFragmentShadingRateProperties :=
      if env.extensions.contains VK_KHR_FRAGMENT_SHADING_RATE_EXTENSION_NAME then
        env.fragmentShadingRateProperties
      else defaultFragmentShadingRateProperties
    m_deviceIdProperties := env.idProperties
    m_memoryProperties := env.memoryProperties
    m_vkDriverVersion := normalizedDriverVersion driverProps.driverID env.deviceProperties.driverVersion
    m_deviceIdOverride := deviceIdOverride
    m_subsystemIdOverride := subsystemIdOverride
    m_driverVersionOverride := driverVersionOverride }

/-- `NvapiAdapter::Initialize` (named `Init` here), step for step:
interface query, library load, the two extension-enumeration calls, the
chained property query, the memory-property query, NVIDIA driver-version
normalization, the DXGI output loop, and finally the three environment
overrides. The unchecked symbol lookups surface as `nullCall` at the first
call through the missing entry point. -/
def NvapiAdapter.Init (env : InitEnv) (outputs : List Nat) : InitResult :=
  if !env.queryInterfaceOk then .returnedFalse outputs
  else if !env.loadLibraryOk then .returnedFalse outputs
  else if !env.procEnumerateDeviceExtensionPropertiesOk then .nullCall outputs
  else if env.enumerateCountResult ≠ VK_SUCCESS then .returnedFalse outputs
  else if env.enumerateDataResult ≠ VK_SUCCESS then .returnedFalse outputs
  else if !env.procGetInstanceProcAddrOk then .nullCall outputs
  else if !env.instanceProcProperties2Ok then .nullCall outputs
  else if !env.instanceProcMemoryProperties2Ok then .nullCall outputs
  else
    let outputs1 := outputs ++ env.dxgiOutputs
    match parseEnvOverride env.envDeviceId with
    | none => .exn outputs1
    | some deviceIdOverride =>
      match parseEnvOverride env.envSubsystemId with
      | none => .exn outputs1
      | some subsystemIdOverride =>
        match parseEnvOverride env.envDriverVersion with
        | none => .exn outputs1
        | some driverVersionOverride =>
          .ok (initSnapshotState env deviceIdOverride subsystemIdOverride driverVersionOverride) outputs1

/-- Inversion for the success path of `Init`: `return true` is reached
exactly when every external step succeeded and all three override
variables parsed (or were empty), and then the final state and output
list are determined. -/
theorem Init_ok_iff (env : InitEnv) (outputs : List Nat) (a : NvapiAdapter) (outs : List Nat) :
    NvapiAdapter.Init env outputs = InitResult.ok a outs ↔
      env.queryInterfaceOk = true ∧ env.loadLibraryOk = true ∧
      env.procEnumerateDeviceExtensionPropertiesOk = true ∧
      env.enumerateCountResult = VK_SUCCESS ∧
      env.enumerateDataResult = VK_SUCCESS ∧
      env.procGetInstanceProcAddrOk = true ∧
      env.instanceProcProperties2Ok = true ∧
      env.instanceProcMemoryProperties2Ok = true ∧
      ∃ dOv sOv vOv,
        parseEnvOverride env.envDeviceId = some dOv ∧
        parseEnvOverride env.envSubsystemId = some sOv ∧
        parseEnvOverride env.envDriverVersion = some vOv ∧
        a = initSnapshotState env dOv sOv vOv ∧
        outs = outputs ++ env.dxgiOutputs := by
  constructor
  · intro h
    unfold NvapiAdapter.Init at h
    repeat' split at h
    all_goals simp_all
  · rintro ⟨h1, h2, h3, h4, h5, h6, h7, h8, dOv, sOv, vOv, hd, hs, hv, ha, ho⟩
    subst ha ho
    unfold NvapiAdapter.Init
    simp [h1, h2, h3, h4, h5, h6, h7, h8, hd, hs, hv]

/-- Inversion for the `return false` path of `Init`: it can only be reached
with the caller's output list untouched. -/
theorem Init_returnedFalse_inv (env : InitEnv) (outputs outs : List Nat)
    (h : NvapiAdapter.Init env outputs = InitResult.returnedFalse outs) : outs = outputs := by
  unfold NvapiAdapter.Init at h
  repeat' split at h
  all_goals simp_all

/-- A concrete adapter state used by the witness theorems; the individual
fixtures below override the fields a witness exercises. -/
def baseAdapter : NvapiAdapter :=
  { m_deviceExtensions := []
    m_deviceProperties := ⟨"NVIDIA GeForce RTX 3070", 4318, 9348, 2, 1971466240⟩
    m_devicePciBusProperties := ⟨5⟩
    m_deviceDriverProperties := ⟨4⟩
    m_deviceFragmentShadingRateProperties := ⟨false⟩
    m_deviceIdProperties := ⟨[1, 2, 3, 4, 5, 6, 7, 8], true⟩
    m_memoryProperties := ⟨[]⟩
    m_vkDriverVersion := 1971466240
    m_deviceIdOverride := 0
    m_subsystemIdOverride := 0
    m_driverVersionOverride := 0 }

/-- C1: `GetArchitectureId` evaluates its generation tests strictly
newest-to-oldest and returns at the first match: the fragment-shading-rate
test (extension plus multiple-viewports capability) gives `GA100` no matter
which older indicators are present, each older test fires only when every
newer test failed, and with no indicator extension at all the result is the
oldest generation `GK100`. -/
theorem claim1_GetArchitectureId_ladder (a : NvapiAdapter) :
    ((a.isVkDeviceExtensionSupported VK_KHR_FRAGMENT_SHADING_RATE_EXTENSION_NAME &&
        a.m_deviceFragmentShadingRateProperties.primitiveFragmentShadingRateWithMultipleViewports) = true →
      a.GetArchitectureId = NV_GPU_ARCHITECTURE_GA100) ∧
    ((a.isVkDeviceExtensionSupported VK_KHR_FRAGMENT_SHADING_RATE_EXTENSION_NAME &&
        a.m_deviceFragmentShadingRateProperties.primitiveFragmentShadingRateWithMultipleViewports) = false →
      a.isVkDeviceExtensionSupported VK_NV_SHADING_RATE_IMAGE_EXTENSION_NAME = true →
      a.GetArchitectureId = NV_GPU_ARCHITECTURE_TU100) ∧
    ((a.isVkDeviceExtensionSupported VK_KHR_FRAGMENT_SHADING_RATE_EXTENSION_NAME &&
        a.m_deviceFragmentShadingRateProperties.primitiveFragmentShadingRateWithMultipleViewports) = false →
      a.isVkDeviceExtensionSupported VK_NV_SHADING_RATE_IMAGE_EXTENSION_NAME = false →
      a.isVkDeviceExtensionSupported VK_NVX_IMAGE_VIEW_HANDLE_EXTENSION_NAME = true →
      a.GetArchitectureId = NV_GPU_ARCHITECTURE_GV100) ∧
    ((a.isVkDeviceExtensionSupported VK_KHR_FRAGMENT_SHADING_RATE_EXTENSION_NAME &&
        a.m_deviceFragmentShadingRateProperties.primitiveFragmentShadingRateWithMultipleViewports) = false →
      a.isVkDeviceExtensionSupported VK_NV_SHADING_RATE_IMAGE_EXTENSION_NAME = false →
      a.isVkDeviceExtensionSupported VK_NVX_IMAGE_VIEW_HANDLE_EXTENSION_NAME = false →
      a.isVkDeviceExtensionSupported VK_NV_CLIP_SPACE_W_SCALING_EXTENSION_NAME = true →
      a.GetArchitectureId = NV_GPU_ARCHITECTURE_GP100) ∧
    ((a.isVkDeviceExtensionSupported VK_KHR_FRAGMENT_SHADING_RATE_EXTENSION_NAME &&
        a.m_deviceFragmentShadingRateProperties.primitiveFragmentShadingRateWithMultipleViewports) = false →
      a.isVkDeviceExtensionSupported VK_NV_SHADING_RATE_IMAGE_EXTENSION_NAME = false →
      a.isVkDeviceExtensionSupported VK_NVX_IMAGE_VIEW_HANDLE_EXTENSION_NAME = false →
      a.isVkDeviceExtensionSupported VK_NV_CLIP_SPACE_W_SCALING_EXTENSION_NAME = false →
      a.isVkDeviceExtensionSupported VK_NV_VIEWPORT_ARRAY2_EXTENSION_NAME = true →
      a.GetArchitectureId = NV_GPU_ARCHITECTURE_GM200) ∧
    (a.isVkDeviceExtensionSupported VK_KHR_FRAGMENT_SHADING_RATE_EXTENSION_NAME = false →
      a.isVkDeviceExtensionSupported VK_NV_SHADING_RATE_IMAGE_EXTENSION_NAME = false →
      a.isVkDeviceExtensionSupported VK_NVX_IMAGE_VIEW_HANDLE_EXTENSION_NAME = false →
      a.isVkDeviceExtensionSupported VK_NV_CLIP_SPACE_W_SCALING_EXTENSION_NAME = false →
      a.isVkDeviceExtensionSupported VK_NV_VIEWPORT_ARRAY2_EXTENSION_NAME = false →
      a.GetArchitectureId = NV_GPU_ARCHITECTURE_GK100) := by
  refine ⟨?_, ?_, ?_, ?_, ?_, ?_⟩ <;> intros <;>
    simp_all [NvapiAdapter.GetArchitectureId]

/-- Witness for C1: with every indicator extension present and the
capability set, the newest generation wins; with only the two middle
indicators, the ladder stops at `TU100`; with no indicator at all it falls
back to `GK100`. -/
theorem claim1_GetArchitectureId_ladder_witness :
    ({ baseAdapter with
        m_deviceExtensions := [VK_KHR_FRAGMENT_SHADING_RATE_EXTENSION_NAME,
          VK_NV_SHADING_RATE_IMAGE_EXTENSION_NAME, VK_NVX_IMAGE_VIEW_HANDLE_EXTENSION_NAME,
          VK_NV_CLIP_SPACE_W_SCALING_EXTENSION_NAME, VK_NV_VIEWPORT_ARRAY2_EXTENSION_NAME]
        m_deviceFragmentShadingRateProperties := ⟨true⟩ } : NvapiAdapter).GetArchitectureId
        = NV_GPU_ARCHITECTURE_GA100 ∧
    ({ baseAdapter with
        m_deviceExtensions := [VK_NV_SHADING_RATE_IMAGE_EXTENSION_NAME,
          VK_NVX_IMAGE_VIEW_HANDLE_EXTENSION_NAME] } : NvapiAdapter).GetArchitectureId
        = NV_GPU_ARCHITECTURE_TU100 ∧
    (baseAdapter.GetArchitectureId = NV_GPU_ARCHITECTURE_GK100) :=
  ⟨(claim1_GetArchitectureId_ladder _).1 (by decide),
   (claim1_GetArchitectureId_ladder _).2.1 (by decide) (by decide),
   (claim1_GetArchitectureId_ladder _).2.2.2.2.2 (by decide) (by decide) (by decide)
     (by decide) (by decide)⟩

/-- C8: `GetLUID` copies the snapshot LUID into the caller's buffer and
returns success exactly when `deviceLUIDValid` holds; on the invalid path it
returns failure with the buffer untouched. -/
theorem claim8_GetLUID (a : NvapiAdapter) (luid : LUID) :
    (a.m_deviceIdProperties.deviceLUIDValid = true →
      a.GetLUID luid = (true, ⟨a.m_deviceIdProperties.deviceLUID⟩)) ∧
    (a.m_deviceIdProperties.deviceLUIDValid = false →
      a.GetLUID luid = (false, luid)) := by
  constructor <;> intro h <;> simp [NvapiAdapter.GetLUID, h]

/-- Witness for C8 at a concrete adapter and buffer: the valid snapshot
fills the buffer with the snapshot bytes, the invalid one leaves the
caller's bytes alone. -/
theorem claim8_GetLUID_witness :
    baseAdapter.GetLUID ⟨[9, 9, 9, 9, 9, 9, 9, 9]⟩ = (true, ⟨[1, 2, 3, 4, 5, 6, 7, 8]⟩) ∧
    ({ baseAdapter with m_deviceIdProperties := ⟨[1, 2, 3, 4, 5, 6, 7, 8], false⟩ } :
        NvapiAdapter).GetLUID ⟨[9, 9, 9, 9, 9, 9, 9, 9]⟩ = (false, ⟨[9, 9, 9, 9, 9, 9, 9, 9]⟩) :=
  ⟨(claim8_GetLUID baseAdapter ⟨[9, 9, 9, 9, 9, 9, 9, 9]⟩).1 (by decide),
   (claim8_GetLUID _ ⟨[9, 9, 9, 9, 9, 9, 9, 9]⟩).2 (by decide)⟩

/-- C9: `GetGpuType` passes discrete and integrated device types through
unchanged and maps every other device type (virtual, cpu, ...) to
`VK_PHYSICAL_DEVICE_TYPE_OTHER`. -/
theorem claim9_GetGpuType (a : NvapiAdapter) :
    (a.m_deviceProperties.deviceType = VK_PHYSICAL_DEVICE_TYPE_DISCRETE_GPU ∨
        a.m_deviceProperties.deviceType = VK_PHYSICAL_DEVICE_TYPE_INTEGRATED_GPU →
      a.GetGpuType = a.m_deviceProperties.deviceType) ∧
    (a.m_deviceProperties.deviceType ≠ VK_PHYSICAL_DEVICE_TYPE_DISCRETE_GPU →
      a.m_deviceProperties.deviceType ≠ VK_PHYSICAL_DEVICE_TYPE_INTEGRATED_GPU →
      a.GetGpuType = VK_PHYSICAL_DEVICE_TYPE_OTHER) := by
  constructor
  · intro h
    rcases h with h | h <;> simp [NvapiAdapter.GetGpuType, h]
  · intro h1 h2
    simp [NvapiAdapter.GetGpuType, h1, h2]

/-- Witness for C9: virtual (3) and cpu (4) map to other (0), discrete (2)
passes through. -/
theorem claim9_GetGpuType_witness :
    ({ baseAdapter with m_deviceProperties := ⟨"v", 0, 0, VK_PHYSICAL_DEVICE_TYPE_VIRTUAL_GPU, 0⟩ } :
        NvapiAdapter).GetGpuType = VK_PHYSICAL_DEVICE_TYPE_OTHER ∧
    ({ baseAdapter with m_deviceProperties := ⟨"c", 0, 0, VK_PHYSICAL_DEVICE_TYPE_CPU, 0⟩ } :
        NvapiAdapter).GetGpuType = VK_PHYSICAL_DEVICE_TYPE_OTHER ∧
    baseAdapter.GetGpuType = VK_PHYSICAL_DEVICE_TYPE_DISCRETE_GPU :=
  ⟨(claim9_GetGpuType _).2 (by decide) (by decide),
   (claim9_GetGpuType _).2 (by decide) (by decide),
   (claim9_GetGpuType baseAdapter).1 (Or.inl (by decide))⟩

/-- C3: `GetDriverVersion` returns the driver-version override whenever it
is set (non-zero); otherwise it returns `major * 100 + min(minor, 99)` of
the normalized driver version, so the minor component contributes at most
99. The hypothesis is the `uint32_t` range of the stored version. -/
theorem claim3_GetDriverVersion (a : NvapiAdapter) (hv : a.m_vkDriverVersion < U32) :
    (a.m_driverVersionOverride > 0 → a.GetDriverVersion = a.m_driverVersionOverride) ∧
    (a.m_driverVersionOverride = 0 →
      a.GetDriverVersion =
        VK_VERSION_MAJOR a.m_vkDriverVersion * 100 +
          min (VK_VERSION_MINOR a.m_vkDriverVersion) 99 ∧
      min (VK_VERSION_MINOR a.m_vkDriverVersion) 99 ≤ 99) := by
  constructor
  · intro h
    simp [NvapiAdapter.GetDriverVersion, h]
  · intro h
    have hmaj : VK_VERSION_MAJOR a.m_vkDriverVersion < 1024 := by
      unfold VK_VERSION_MAJOR
      unfold U32 at hv
      rw [Nat.shiftRight_eq_div_pow]
      omega
    have hmin : min (VK_VERSION_MINOR a.m_vkDriverVersion) 99 ≤ 99 := min_le_right _ _
    have hlt : VK_VERSION_MAJOR a.m_vkDriverVersion * 100 +
        min (VK_VERSION_MINOR a.m_vkDriverVersion) 99 < U32 := by
      unfold U32
      omega
    refine ⟨?_, hmin⟩
    simp [NvapiAdapter.GetDriverVersion, h, u32, Nat.mod_eq_of_lt hlt]

/-- Witness for C3: a concrete adapter without an override (version 470.35
packed VK-style yields 47035) and one with override 45589. -/
theorem claim3_GetDriverVersion_witness :
    baseAdapter.GetDriverVersion = 47035 ∧
    ({ baseAdapter with m_driverVersionOverride := 45589 } : NvapiAdapter).GetDriverVersion
      = 45589 :=
  ⟨by
    have h := (claim3_GetDriverVersion baseAdapter (by decide)).2 (by decide)
    rw [h.1]
    decide,
   (claim3_GetDriverVersion _ (by decide)).1 (by decide)⟩

/-- C4: `GetDeviceId` returns the device-id override whenever it is set
(non-zero) — with the override parsed from "461377758" it returns 461377758
regardless of the snapshot — and otherwise `(deviceID << 16) + vendorID` in
32-bit arithmetic; an empty override variable leaves the computed value
untouched. -/
theorem claim4_GetDeviceId :
    (∀ a : NvapiAdapter, a.m_deviceIdOverride > 0 → a.GetDeviceId = a.m_deviceIdOverride) ∧
    (∀ a : NvapiAdapter, a.m_deviceIdOverride = 461377758 → a.GetDeviceId = 461377758) ∧
    (∀ a : NvapiAdapter, a.m_deviceIdOverride = 0 →
      a.GetDeviceId =
        ((a.m_deviceProperties.deviceID <<< 16) + a.m_deviceProperties.vendorID) % U32) ∧
    (∀ (env : InitEnv) (outputs : List Nat) (a : NvapiAdapter) (outs : List Nat),
      NvapiAdapter.Init env outputs = InitResult.ok a outs →
      env.envDeviceId = "461377758" → a.GetDeviceId = 461377758) ∧
    (∀ (env : InitEnv) (outputs : List Nat) (a : NvapiAdapter) (outs : List Nat),
      NvapiAdapter.Init env outputs = InitResult.ok a outs →
      env.envDeviceId = "" →
      a.m_deviceIdOverride = 0 ∧
      a.GetDeviceId =
        ((env.deviceProperties.deviceID <<< 16) + env.deviceProperties.vendorID) % U32) := by
  refine ⟨?_, ?_, ?_, ?_, ?_⟩
  · intro a h
    simp [NvapiAdapter.GetDeviceId, h]
  · intro a h
    simp [NvapiAdapter.GetDeviceId, h]
  · intro a h
    simp [NvapiAdapter.GetDeviceId, h, u32]
  · intro env outputs a outs h henv
    rcases (Init_ok_iff env outputs a outs).mp h with
      ⟨-, -, -, -, -, -, -, -, dOv, sOv, vOv, hd, -, -, ha, -⟩
    rw [henv] at hd
    have hparse : parseEnvOverride "461377758" = some 461377758 := by rfl
    rw [hparse] at hd
    cases hd
    subst ha
    simp [initSnapshotState, NvapiAdapter.GetDeviceId]
  · intro env outputs a outs h henv
    rcases (Init_ok_iff env outputs a outs).mp h with
      ⟨-, -, -, -, -, -, -, -, dOv, sOv, vOv, hd, -, -, ha, -⟩
    rw [henv] at hd
    have hparse : parseEnvOverride "" = some 0 := by rfl
    rw [hparse] at hd
    cases hd
    subst ha
    simp [initSnapshotState, NvapiAdapter.GetDeviceId, u32]

/-- A concrete environment on which every external step of
`NvapiAdapter::Initialize` succeeds; the fixtures below override single
fields. -/
def happyEnv : InitEnv :=
  { queryInterfaceOk := true
    loadLibraryOk := true
    procGetInstanceProcAddrOk := true
    procEnumerateDeviceExtensionPropertiesOk := true
    enumerateCountResult := 0
    enumerateDataResult := 0
    extensions := [VK_KHR_DRIVER_PROPERTIES_EXTENSION_NAME]
    instanceProcProperties2Ok := true
    instanceProcMemoryProperties2Ok := true
    deviceProperties := ⟨"NVIDIA GeForce RTX 3070", 4318, 9348, 2, 459403264⟩
    pciBusProperties := ⟨5⟩
    driverProperties := ⟨4⟩
    fragmentShadingRateProperties := ⟨true⟩
    idProperties := ⟨[1, 2, 3, 4, 5, 6, 7, 8], true⟩
    memoryProperties := ⟨[⟨8589934592, 1⟩]⟩
    dxgiOutputs := []
    envDeviceId := ""
    envSubsystemId := ""
    envDriverVersion := "" }

/-- Witness for C4: on a run with the device-id variable set to
"461377758", `GetDeviceId` of the resulting adapter is 461377758; with the
variable empty it is the packed snapshot value (9348 << 16) + 4318. -/
theorem claim4_GetDeviceId_witness :
    (initSnapshotState { happyEnv with envDeviceId := "461377758" } 461377758 0 0).GetDeviceId
      = 461377758 ∧
    (initSnapshotState happyEnv 0 0 0).GetDeviceId = 612634846 :=
  ⟨claim4_GetDeviceId.2.2.2.1 { happyEnv with envDeviceId := "461377758" } []
      (initSnapshotState { happyEnv with envDeviceId := "461377758" } 461377758 0 0) []
      (by rfl) rfl,
   by
    have h := (claim4_GetDeviceId.2.2.2.2 happyEnv []
      (initSnapshotState happyEnv 0 0 0) [] (by rfl) rfl).2
    rw [h]
    decide⟩

/-- C2: on every successful initialization, when the snapshot's driver id
is `VK_DRIVER_ID_NVIDIA_PROPRIETARY` the stored driver version is the raw
version re-packed with NVIDIA's split (major = generic major, minor =
generic minor >> 2, patch = generic patch of the value >> 2, then >> 4);
for any other driver id the raw version is stored unchanged; and the two
decodings differ on the raw value 0x1B6A7000. -/
theorem claim2_driverVersion_normalization :
    (∀ (env : InitEnv) (outputs : List Nat) (a : NvapiAdapter) (outs : List Nat),
      NvapiAdapter.Init env outputs = InitResult.ok a outs →
      a.m_vkDriverVersion =
        if a.m_deviceDriverProperties.driverID = VK_DRIVER_ID_NVIDIA_PROPRIETARY then
          VK_MAKE_VERSION
            (VK_VERSION_MAJOR a.m_deviceProperties.driverVersion)
            (VK_VERSION_MINOR (a.m_deviceProperties.driverVersion >>> 0) >>> 2)
            (VK_VERSION_PATCH (a.m_deviceProperties.driverVersion >>> 2) >>> 4)
        else
          a.m_deviceProperties.driverVersion) ∧
    VK_MAKE_VERSION
        (VK_VERSION_MAJOR 459403264)
        (VK_VERSION_MINOR (459403264 >>> 0) >>> 2)
        (VK_VERSION_PATCH (459403264 >>> 2) >>> 4) ≠ 459403264 := by
  constructor
  · intro env outputs a outs h
    rcases (Init_ok_iff env outputs a outs).mp h with
      ⟨-, -, -, -, -, -, -, -, dOv, sOv, vOv, -, -, -, ha, -⟩
    subst ha
    simp only [initSnapshotState, normalizedDriverVersion]
  · decide

/-- Witness for C2 on a concrete successful run whose snapshot reports the
NVIDIA-proprietary driver id and the raw version 0x1B6A7000. -/
theorem claim2_driverVersion_normalization_witness :
    (initSnapshotState happyEnv 0 0 0).m_vkDriverVersion =
      if (initSnapshotState happyEnv 0 0 0).m_deviceDriverProperties.driverID
          = VK_DRIVER_ID_NVIDIA_PROPRIETARY then
        VK_MAKE_VERSION
          (VK_VERSION_MAJOR (initSnapshotState happyEnv 0 0 0).m_deviceProperties.driverVersion)
          (VK_VERSION_MINOR ((initSnapshotState happyEnv 0 0 0).m_deviceProperties.driverVersion >>> 0) >>> 2)
          (VK_VERSION_PATCH ((initSnapshotState happyEnv 0 0 0).m_deviceProperties.driverVersion >>> 2) >>> 4)
      else
        (initSnapshotState happyEnv 0 0 0).m_deviceProperties.driverVersion :=
  claim2_driverVersion_normalization.1 happyEnv [] (initSnapshotState happyEnv 0 0 0) []
    (by rfl)

/-- The heap scan returns 0 when no heap carries the device-local bit. -/
theorem firstDeviceLocalHeapKiB_of_all_zero (l : List VkMemoryHeap)
    (h : ∀ x ∈ l, x.flags &&& VK_MEMORY_HEAP_DEVICE_LOCAL_BIT = 0) :
    firstDeviceLocalHeapKiB l = 0 := by
  induction l with
  | nil => rfl
  | cons heap rest ih =>
    have hh := h heap (List.mem_cons_self _ _)
    simp [firstDeviceLocalHeapKiB, hh]
    exact ih fun x hx => h x (List.mem_cons_of_mem _ hx)

/-- The heap scan stops at the first heap carrying the device-local bit. -/
theorem firstDeviceLocalHeapKiB_append (pre post : List VkMemoryHeap) (heap : VkMemoryHeap)
    (hpre : ∀ x ∈ pre, x.flags &&& VK_MEMORY_HEAP_DEVICE_LOCAL_BIT = 0)
    (hheap : heap.flags &&& VK_MEMORY_HEAP_DEVICE_LOCAL_BIT ≠ 0) :
    firstDeviceLocalHeapKiB (pre ++ heap :: post) = u32 (heap.size / 1024) := by
  induction pre with
  | nil => simp [firstDeviceLocalHeapKiB, hheap]
  | cons x rest ih =>
    have hx := hpre x (List.mem_cons_self _ _)
    rw [List.cons_append]
    simp [firstDeviceLocalHeapKiB, hx]
    exact ih fun y hy => hpre y (List.mem_cons_of_mem _ hy)

/-- A snapshot with a single device-local heap of 4 TiB: `size / 1024` is
exactly 2^32, which the `uint32_t` return type truncates to 0. -/
def vramTruncationAdapter : NvapiAdapter :=
  { baseAdapter with m_memoryProperties := ⟨[⟨4398046511104, 1⟩]⟩ }

/-- The spec's three-heap snapshot: only the second heap is device-local,
with size 8589934592 bytes. -/
def vramExampleAdapter : NvapiAdapter :=
  { baseAdapter with
      m_memoryProperties := ⟨[⟨1073741824, 0⟩, ⟨8589934592, 1⟩, ⟨268435456, 0⟩]⟩ }

/-- C5 counterexample: for a device-local heap of 4398046511104 bytes
(4 TiB) the claim says `GetVRamSize` returns `size / 1024 = 4294967296`,
but the `uint32_t` return truncates that to 0. -/
theorem claim5_GetVRamSize_counterexample :
    vramTruncationAdapter.GetVRamSize = 0 ∧
    (4398046511104 : Nat) / 1024 = 4294967296 ∧
    vramTruncationAdapter.GetVRamSize ≠ 4398046511104 / 1024 := by
  decide

/-- C5 amended: `GetVRamSize` returns the size of the first heap (in index
order) whose flags include the device-local bit, divided by 1024 and
truncated to 32 bits (`% 2^32`), and 0 when no heap is device-local; for
three heaps where only the second is device-local with size 8589934592 it
returns 8388608. -/
theorem claim5_GetVRamSize_amended :
    (∀ (a : NvapiAdapter) (pre post : List VkMemoryHeap) (heap : VkMemoryHeap),
      a.m_memoryProperties.memoryHeaps = pre ++ heap :: post →
      (∀ x ∈ pre, x.flags &&& VK_MEMORY_HEAP_DEVICE_LOCAL_BIT = 0) →
      heap.flags &&& VK_MEMORY_HEAP_DEVICE_LOCAL_BIT ≠ 0 →
      a.GetVRamSize = (heap.size / 1024) % U32) ∧
    (∀ a : NvapiAdapter,
      (∀ x ∈ a.m_memoryProperties.memoryHeaps,
        x.flags &&& VK_MEMORY_HEAP_DEVICE_LOCAL_BIT = 0) →
      a.GetVRamSize = 0) ∧
    vramExampleAdapter.GetVRamSize = 8388608 := by
  refine ⟨?_, ?_, ?_⟩
  · intro a pre post heap hsplit hpre hheap
    unfold NvapiAdapter.GetVRamSize
    rw [hsplit, firstDeviceLocalHeapKiB_append pre post heap hpre hheap]
    rfl
  · intro a h
    unfold NvapiAdapter.GetVRamSize
    exact firstDeviceLocalHeapKiB_of_all_zero _ h
  · decide

/-- Witness for C5 amended, at the spec's three-heap snapshot and at an
empty heap list. -/
theorem claim5_GetVRamSize_amended_witness :
    vramExampleAdapter.GetVRamSize = (8589934592 / 1024) % U32 ∧
    baseAdapter.GetVRamSize = 0 :=
  ⟨claim5_GetVRamSize_amended.1 vramExampleAdapter [⟨1073741824, 0⟩] [⟨268435456, 0⟩]
      ⟨8589934592, 1⟩ rfl (by decide) (by decide),
   claim5_GetVRamSize_amended.2.1 baseAdapter (by decide)⟩

/-- C6: every path on which `Initialize` returns false — failed interop
query, failed library load, or either extension-enumeration call reporting
non-success — occurs before output enumeration, so a false result leaves
the caller's output list exactly as it was. -/
theorem claim6_Init_false_no_outputs :
    (∀ (env : InitEnv) (outputs : List Nat), env.queryInterfaceOk = false →
      NvapiAdapter.Init env outputs = InitResult.returnedFalse outputs) ∧
    (∀ (env : InitEnv) (outputs : List Nat), env.queryInterfaceOk = true →
      env.loadLibraryOk = false →
      NvapiAdapter.Init env outputs = InitResult.returnedFalse outputs) ∧
    (∀ (env : InitEnv) (outputs : List Nat), env.queryInterfaceOk = true →
      env.loadLibraryOk = true → env.procEnumerateDeviceExtensionPropertiesOk = true →
      env.enumerateCountResult ≠ VK_SUCCESS →
      NvapiAdapter.Init env outputs = InitResult.returnedFalse outputs) ∧
    (∀ (env : InitEnv) (outputs : List Nat), env.queryInterfaceOk = true →
      env.loadLibraryOk = true → env.procEnumerateDeviceExtensionPropertiesOk = true →
      env.enumerateCountResult = VK_SUCCESS → env.enumerateDataResult ≠ VK_SUCCESS →
      NvapiAdapter.Init env outputs = InitResult.returnedFalse outputs) ∧
    (∀ (env : InitEnv) (outputs outs : List Nat),
      NvapiAdapter.Init env outputs = InitResult.returnedFalse outs → outs = outputs) := by
  refine ⟨?_, ?_, ?_, ?_, ?_⟩
  · intro env outputs h1
    unfold NvapiAdapter.Init
    simp [h1]
  · intro env outputs h1 h2
    unfold NvapiAdapter.Init
    simp [h1, h2]
  · intro env outputs h1 h2 h3 h4
    unfold NvapiAdapter.Init
    simp [h1, h2, h3, h4]
  · intro env outputs h1 h2 h3 h4 h5
    unfold NvapiAdapter.Init
    simp [h1, h2, h3, h4, h5]
  · exact Init_returnedFalse_inv

/-- Witness for C6: a failing interop query on a non-empty caller list
returns false with the list unchanged. -/
theorem claim6_Init_false_no_outputs_witness :
    NvapiAdapter.Init { happyEnv with queryInterfaceOk := false } [3]
      = InitResult.returnedFalse [3] :=
  claim6_Init_false_no_outputs.1 { happyEnv with queryInterfaceOk := false } [3] rfl

/-- An otherwise-successful environment in which the
`vkEnumerateDeviceExtensionProperties` symbol lookup yields null. -/
def missingSymbolEnv : InitEnv :=
  { happyEnv with procEnumerateDeviceExtensionPropertiesOk := false }

/-- C7 counterexample: with the `vkEnumerateDeviceExtensionProperties`
lookup yielding null, `Initialize` does not return false — it proceeds to
call through the null entry point (`nullCall`). -/
theorem claim7_missing_symbol_counterexample :
    NvapiAdapter.Init missingSymbolEnv [] = InitResult.nullCall [] ∧
    InitResult.nullCall ([] : List Nat) ≠ InitResult.returnedFalse [] :=
  ⟨rfl, by simp⟩

/-- C7 amended: the source checks neither `GetProcAddress` nor
`vkGetInstanceProcAddr` results, so when a required entry-point symbol is
missing `Initialize` does not fail with `false`: it calls through the null
pointer (undefined behaviour, modelled as `nullCall`), with the output list
still untouched at that point. -/
theorem claim7_missing_symbol_amended :
    (∀ (env : InitEnv) (outputs : List Nat),
      env.queryInterfaceOk = true → env.loadLibraryOk = true →
      env.procEnumerateDeviceExtensionPropertiesOk = false →
      NvapiAdapter.Init env outputs = InitResult.nullCall outputs) ∧
    (∀ (env : InitEnv) (outputs : List Nat),
      env.queryInterfaceOk = true → env.loadLibraryOk = true →
      env.procEnumerateDeviceExtensionPropertiesOk = true →
      env.enumerateCountResult = VK_SUCCESS → env.enumerateDataResult = VK_SUCCESS →
      env.procGetInstanceProcAddrOk = false →
      NvapiAdapter.Init env outputs = InitResult.nullCall outputs) ∧
    (∀ outs : List Nat,
      NvapiAdapter.Init missingSymbolEnv [] ≠ InitResult.returnedFalse outs) := by
  refine ⟨?_, ?_, ?_⟩
  · intro env outputs h1 h2 h3
    unfold NvapiAdapter.Init
    simp [h1, h2, h3]
  · intro env outputs h1 h2 h3 h4 h5 h6
    unfold NvapiAdapter.Init
    simp [h1, h2, h3, h4, h5, h6]
  · intro outs
    rw [show NvapiAdapter.Init missingSymbolEnv [] = InitResult.nullCall [] from rfl]
    simp

/-- Witness for C7 amended: the missing enumeration symbol leads to
`nullCall` with the caller's list untouched. -/
theorem claim7_missing_symbol_amended_witness :
    NvapiAdapter.Init missingSymbolEnv [4] = InitResult.nullCall [4] :=
  claim7_missing_symbol_amended.1 missingSymbolEnv [4] rfl rfl rfl

/-- C10: when an override environment variable is set to a non-empty string
on which `std::stoul` throws, `Initialize` neither returns false nor skips
the value: the run ends exceptionally (`exn`), and by then the enumerated
outputs have already been appended to the caller's list. -/
theorem claim10_override_parse_exception :
    (∀ (env : InitEnv) (outputs : List Nat),
      env.queryInterfaceOk = true → env.loadLibraryOk = true →
      env.procEnumerateDeviceExtensionPropertiesOk = true →
      env.enumerateCountResult = VK_SUCCESS → env.enumerateDataResult = VK_SUCCESS →
      env.procGetInstanceProcAddrOk = true → env.instanceProcProperties2Ok = true →
      env.instanceProcMemoryProperties2Ok = true →
      env.envDeviceId.isEmpty = false → stoul env.envDeviceId = none →
      NvapiAdapter.Init env outputs = InitResult.exn (outputs ++ env.dxgiOutputs)) ∧
    (∀ (env : InitEnv) (outputs : List Nat),
      env.queryInterfaceOk = true → env.loadLibraryOk = true →
      env.procEnumerateDeviceExtensionPropertiesOk = true →
      env.enumerateCountResult = VK_SUCCESS → env.enumerateDataResult = VK_SUCCESS →
      env.procGetInstanceProcAddrOk = true → env.instanceProcProperties2Ok = true →
      env.instanceProcMemoryProperties2Ok = true →
      (∃ d, parseEnvOverride env.envDeviceId = some d) →
      env.envSubsystemId.isEmpty = false → stoul env.envSubsystemId = none →
      NvapiAdapter.Init env outputs = InitResult.exn (outputs ++ env.dxgiOutputs)) ∧
    (∀ (env : InitEnv) (outputs : List Nat),
      env.queryInterfaceOk = true → env.loadLibraryOk = true →
      env.procEnumerateDeviceExtensionPropertiesOk = true →
      env.enumerateCountResult = VK_SUCCESS → env.enumerateDataResult = VK_SUCCESS →
      env.procGetInstanceProcAddrOk = true → env.instanceProcProperties2Ok = true →
      env.instanceProcMemoryProperties2Ok = true →
      (∃ d, parseEnvOverride env.envDeviceId = some d) →
      (∃ s, parseEnvOverride env.envSubsystemId = some s) →
      env.envDriverVersion.isEmpty = false → stoul env.envDriverVersion = none →
      NvapiAdapter.Init env outputs = InitResult.exn (outputs ++ env.dxgiOutputs)) ∧
    stoul "abc" = none ∧
    (∀ outs : List Nat, InitResult.exn outs ≠ InitResult.returnedFalse outs) := by
  refine ⟨?_, ?_, ?_, rfl, by simp⟩
  · intro env outputs h1 h2 h3 h4 h5 h6 h7 h8 he hs
    have hdParse : parseEnvOverride env.envDeviceId = none := by
      simp [parseEnvOverride, he, hs]
    unfold NvapiAdapter.Init
    simp [h1, h2, h3, h4, h5, h6, h7, h8, hdParse]
  · intro env outputs h1 h2 h3 h4 h5 h6 h7 h8 hd he hs
    obtain ⟨d, hd⟩ := hd
    have hsubParse : parseEnvOverride env.envSubsystemId = none := by
      simp [parseEnvOverride, he, hs]
    unfold NvapiAdapter.Init
    simp [h1, h2, h3, h4, h5, h6, h7, h8, hd, hsubParse]
  · intro env outputs h1 h2 h3 h4 h5 h6 h7 h8 hd hsub he hs
    obtain ⟨d, hd⟩ := hd
    obtain ⟨s, hsub⟩ := hsub
    have hdrvParse : parseEnvOverride env.envDriverVersion = none := by
      simp [parseEnvOverride, he, hs]
    unfold NvapiAdapter.Init
    simp [h1, h2, h3, h4, h5, h6, h7, h8, hd, hsub, hdrvParse]

/-- An otherwise-successful environment with one output to enumerate and
the device-id variable set to the non-numeric string "abc". -/
def badOverrideEnv : InitEnv :=
  { happyEnv with envDeviceId := "abc", dxgiOutputs := [7] }

/-- Witness for C10: with the device-id variable set to "abc",
initialization ends exceptionally and the enumerated output 7 has already
been appended to the caller's (initially empty) list. -/
theorem claim10_override_parse_exception_witness :
    NvapiAdapter.Init badOverrideEnv [] = InitResult.exn [7] :=
  claim10_override_parse_exception.1 badOverrideEnv [] rfl rfl rfl rfl rfl rfl rfl rfl
    rfl (by rfl)
